import Mathlib

/-!
Verification development for the figure-backend adapter layer of
`pymatviz/utils/plotting.py`.

The Python module is shallowly embedded: machine floats become exact
rationals (`ℚ`), Python exceptions become explicit error values, and the two
external plotting libraries (matplotlib and plotly) are modelled as explicit
state carried by the embedded functions.  Each embedded definition mirrors
one Python function of the source file and keeps its name where Lean allows.
-/

deriving instance DecidableEq for Except

namespace Pymatviz

/-- Python exception kinds raised by the embedded functions. -/
inductive PyError where
  | typeError
  | valueError
  | indexError
  | attributeError
deriving DecidableEq, Repr

/-! ### Small Python primitives -/

/-- Value of a decimal digit character (used by the model of `float(...)`). -/
def digitVal (c : Char) : Option Nat :=
  if c.isDigit then some (c.toNat - 48) else none

/-- Evaluation of a list of decimal digit characters as a natural number. -/
def parseDigits (cs : List Char) : Option Nat :=
  cs.foldl
    (fun acc c =>
      match acc, digitVal c with
      | some a, some d => some (a * 10 + d)
      | _, _ => none)
    (some 0)

/-- Whitespace trimming on a character list (Python `float` ignores
surrounding whitespace). -/
def trimWs (cs : List Char) : List Char :=
  ((cs.dropWhile Char.isWhitespace).reverse.dropWhile Char.isWhitespace).reverse

/-- Model of Python `float(s)` restricted to optionally signed plain decimal
literals with optional surrounding whitespace (the shape of the numeric
components appearing inside an `"rgb(r,g,b[,a])"` string).  Python raises
`ValueError` on anything unparseable, modelled here as `none`. -/
def parseFloat (s : String) : Option ℚ :=
  let cs := trimWs s.toList
  let signed : Bool × List Char :=
    match cs with
    | '-' :: rest => (true, rest)
    | '+' :: rest => (false, rest)
    | _ => (false, cs)
  let neg := signed.1
  let cs2 := signed.2
  let intPart := cs2.takeWhile Char.isDigit
  let rest := cs2.dropWhile Char.isDigit
  let signQ : ℚ → ℚ := fun v => if neg then -v else v
  match rest with
  | [] =>
    if intPart.isEmpty then none
    else (parseDigits intPart).map (fun n => signQ (n : ℚ))
  | '.' :: frac =>
    if frac.all Char.isDigit && !(intPart.isEmpty && frac.isEmpty) then
      match parseDigits intPart, parseDigits frac with
      | some ip, some fp => some (signQ ((ip : ℚ) + (fp : ℚ) / (10 : ℚ) ^ frac.length))
      | _, _ => none
    else none
  | _ => none

/-- Model of Python `str.strip(chars)`: remove leading and trailing
characters belonging to `chars`. -/
def pyStrip (s : String) (chars : List Char) : String :=
  let l := s.toList.dropWhile (fun c => c ∈ chars)
  String.mk ((l.reverse.dropWhile (fun c => c ∈ chars)).reverse)

/-- Model of Python `a or b` for strings (empty string is falsy). -/
def pyStrOr (a b : String) : String :=
  if a = "" then b else a

/-- Model of Python `s.startswith(pre)`. -/
def pyStartsWith (s pre : String) : Bool :=
  decide (s.toList.take pre.toList.length = pre.toList)

/-- Model of Python `s[1:]` on a string. -/
def pyDrop1 (s : String) : String :=
  String.mk (s.toList.drop 1)

/-- Model of Python `s.split(",")` (comma-separated fields, empty fields
kept). -/
def splitCommaAux : List Char → List Char → List (List Char)
  | [], acc => [acc.reverse]
  | c :: rest, acc =>
    if c = ',' then acc.reverse :: splitCommaAux rest []
    else splitCommaAux rest (c :: acc)

/-- Split a string on commas, as Python `s.split(",")`. -/
def pySplitComma (s : String) : List String :=
  (splitCommaAux s.toList []).map String.mk

/-- Association-list lookup with string keys, modelling Python `dict.get`. -/
def pyLookup {α : Type} (k : String) : List (String × α) → Option α
  | [] => none
  | kv :: rest => if kv.1 = k then some kv.2 else pyLookup k rest

/-! ### Colors and luminance (`luminance`, `pick_max_contrast_color`) -/

/-- Color inputs accepted by `luminance`: an RGB(A) tuple of floats or a
color string. -/
inductive ColorType where
  | rgbTuple (r g b : ℚ) (a : Option ℚ)
  | str (s : String)
deriving DecidableEq

/-- Modelled from the spec: `matplotlib.colors.to_rgba`, the host library's
color-resolution routine (an external collaborator, not part of this
repository).  Tuples pass through after a channel range check; a small table
of CSS color names covers the names used here; anything else is rejected
(matplotlib raises `ValueError`, modelled as `none`). -/
def to_rgba : ColorType → Option (ℚ × ℚ × ℚ × ℚ)
  | ColorType.rgbTuple r g b a =>
    let al := a.getD 1
    if 0 ≤ r ∧ r ≤ 1 ∧ 0 ≤ g ∧ g ≤ 1 ∧ 0 ≤ b ∧ b ≤ 1 ∧ 0 ≤ al ∧ al ≤ 1 then
      some (r, g, b, al)
    else none
  | ColorType.str s =>
    if s = "white" then some (1, 1, 1, 1)
    else if s = "black" then some (0, 0, 0, 1)
    else if s = "red" then some (1, 0, 0, 1)
    else if s = "gray" then some (1/2, 1/2, 1/2, 1)
    else none

/-- Numeric components parsed out of an `"rgb(r,g,b[,a])"` string:
`color.strip("rgb()")` followed by splitting on commas and `float`
conversion, exactly as in the source. -/
def parse_rgb_string (s : String) : Option (List ℚ) :=
  (pySplitComma (pyStrip s ("rgb()".toList))).mapM parseFloat

/-- Embedding of `luminance`: WCAG 2.0 relative luminance.  An
`"rgb(...)"` string is parsed component-wise and rescaled from 0-255 when
any channel exceeds 1; every other input goes through the host library's
`to_rgba`. -/
def luminance (color : ColorType) : Except PyError ℚ :=
  match color with
  | ColorType.str s =>
    if pyStartsWith s ("rgb(") then
      match parse_rgb_string s with
      | some (r :: g :: b :: _) =>
        if r > 1 ∨ g > 1 ∨ b > 1 then
          Except.ok (0.2126 * (r / 255) + 0.7152 * (g / 255) + 0.0722 * (b / 255))
        else
          Except.ok (0.2126 * r + 0.7152 * g + 0.0722 * b)
      | _ => Except.error PyError.valueError
    else
      match to_rgba color with
      | some (r, g, b, _) => Except.ok (0.2126 * r + 0.7152 * g + 0.0722 * b)
      | none => Except.error PyError.valueError
  | _ =>
    match to_rgba color with
    | some (r, g, b, _) => Except.ok (0.2126 * r + 0.7152 * g + 0.0722 * b)
    | none => Except.error PyError.valueError

/-- Default luminance threshold of `pick_max_contrast_color`. -/
def default_luminance_threshold : ℚ := 0.3

/-- Default light/dark color pair of `pick_max_contrast_color`. -/
def default_contrast_colors : ColorType × ColorType :=
  (ColorType.str ("white"), ColorType.str ("black"))

/-- Embedding of `pick_max_contrast_color`: the dark member `colors.2` when
the background luminance exceeds the threshold, the light member `colors.1`
otherwise. -/
def pick_max_contrast_color (bg_color : ColorType) (luminance_threshold : ℚ)
    (colors : ColorType × ColorType) : Except PyError ColorType :=
  match luminance bg_color with
  | Except.error e => Except.error e
  | Except.ok bg_luminance =>
    Except.ok (if bg_luminance > luminance_threshold then colors.2 else colors.1)

/-! ### Label prettification (`pretty_label`) -/

/-- Modelled from the spec: backend identifier constant `MATPLOTLIB` from
`pymatviz.typing`, a module of this repository that is not under `src/`. -/
def MATPLOTLIB : String := "matplotlib"

/-- Modelled from the spec: backend identifier constant `PLOTLY` from
`pymatviz.typing`, a module of this repository that is not under `src/`. -/
def PLOTLY : String := "plotly"

/-- Modelled from the spec: the tuple `BACKENDS` of the two supported
backend identifiers from `pymatviz.typing`. -/
def BACKENDS : List String := [MATPLOTLIB, PLOTLY]

/-- Mapping of metric keys to per-backend labels, as in the source. -/
def symbol_mapping : List (String × List (String × String)) :=
  [(("R2"), [((MATPLOTLIB), ("$R^2$")), ((PLOTLY), ("R<sup>2</sup>"))]),
   (("R2_adj"), [((MATPLOTLIB), ("$R^2_{adj}$")),
                 ((PLOTLY), ("R<sup>2</sup><sub>adj</sub>"))])]

/-- Embedding of `pretty_label`. -/
def pretty_label (key : String) (backend : String) : Except PyError String :=
  if backend ∈ BACKENDS then
    match pyLookup key symbol_mapping with
    | some m => Except.ok ((pyLookup backend m).getD key)
    | none => Except.ok key
  else Except.error PyError.valueError

/-! ### Figure handles and the plotting environment -/

/-- Annotation text argument of `annotate`: a single string or a sequence of
strings. -/
inductive TextArg where
  | str (s : String)
  | list (l : List String)
deriving DecidableEq

/-- Literal values stored in modelled Python keyword dictionaries. -/
inductive PyLit where
  | s (v : String)
  | q (v : ℚ)
  | b (v : Bool)
  | fontLit (size : ℚ) (color : String)
  | propLit (color : String)
deriving DecidableEq

/-- Modelled Python keyword dictionary. -/
abbrev PyDict := List (String × PyLit)

/-- Python dict merge `d1 | d2` (right side wins), observed through key
lookup. -/
def pyUpdate (d1 d2 : PyDict) : PyDict :=
  d1.map (fun kv => (kv.1, (pyLookup kv.1 d2).getD kv.2))
    ++ d2.filter (fun kv => (pyLookup kv.1 d1).isNone)

/-- Matplotlib axes, modelled with the fields the adapter layer reads
(axis limits, text-element colors) and writes (anchored-text artists). -/
structure MplAxes where
  xlim : ℚ × ℚ
  ylim : ℚ × ℚ
  xlabel_color : String
  ylabel_color : String
  title_color : String
  tick_colors : List String
  artists : List (TextArg × PyDict)
deriving DecidableEq

/-- Matplotlib figure: its current axes. -/
structure MplFigure where
  gca : MplAxes
deriving DecidableEq

/-- One plotly trace: its sub-plot x-axis reference (the value of
`getattr(trace, "xaxis", None)`) and its x/y data, with `none` entries
modelling missing values (NaN). -/
structure Trace where
  xaxis : Option String
  x : List (Option ℚ)
  y : List (Option ℚ)
deriving DecidableEq

/-- Axis record of a plotly layout (only the axis type is read). -/
structure PlotlyAxis where
  type : Option String
deriving DecidableEq

/-- Result of plotly's `fig.full_figure_for_development(warn=False)`: the
rendered axis types and ranges.  This routine is an external collaborator
(plotly plus its optional kaleido dependency), modelled by its output. -/
structure PlotlyDevFig where
  xaxis_type : Option String
  yaxis_type : Option String
  xaxis_range : ℚ × ℚ
  yaxis_range : ℚ × ℚ
deriving DecidableEq

/-- Plotly figure layout.  The field `font_color` models
`fig.layout.font.color`; `template_font_color` models the chain
`fig.layout.template.layout.font.color` (with `none` for any missing link);
`anns` collects the records added by `fig.add_annotation`. -/
structure PlotlyLayout where
  font_color : Option String
  template_font_color : Option String
  xaxis : PlotlyAxis
  yaxis : PlotlyAxis
  anns : List PyDict
deriving DecidableEq

/-- Plotly figure.  The field `dev` models the external call
`fig.full_figure_for_development`: `some` is a successful render (kaleido
installed), `none` models the `ValueError` it raises when the optional
kaleido dependency is missing. -/
structure PlotlyFigure where
  data : List Trace
  layout : PlotlyLayout
  dev : Option PlotlyDevFig
deriving DecidableEq

/-- Ambient state of the plotting libraries: matplotlib's current axes and
figure (`plt.gca()` / `plt.gcf()`), the `text.color` entry of
`plt.rcParams`, and the resolved font color of plotly's default template
(`pio.templates.default`). -/
structure Env where
  plt_gca : MplAxes
  plt_gcf : MplFigure
  rc_text_color : Option String
  pio_default_font_color : Option String
deriving DecidableEq

/-- Python values that may be passed where a figure handle is expected. -/
inductive PyObj where
  | pyNone
  | mplAxes (ax : MplAxes)
  | mplFigure (f : MplFigure)
  | plotlyFig (f : PlotlyFigure)
  | pyDict
  | pyInt (n : Int)
  | pyStr (s : String)
deriving DecidableEq

/-- Truth of `isinstance(fig, plt.Axes | plt.Figure | go.Figure)`. -/
def isFigType : PyObj → Bool
  | PyObj.mplAxes _ => true
  | PyObj.mplFigure _ => true
  | PyObj.plotlyFig _ => true
  | _ => false

/-! ### Font color (`get_font_color` and its two helpers) -/

/-- Python truthiness of an optional color string (both `None` and the empty
string are falsy). -/
def pyTruthy (o : Option String) : Bool :=
  match o with
  | some c => decide (c ≠ "")
  | none => false

/-- Embedding of `_get_plotly_font_color`: figure-level font color, then the
figure's template, then the global default template, then `"black"`. -/
def _get_plotly_font_color (env : Env) (pf : PlotlyFigure) : String :=
  if pyTruthy pf.layout.font_color then pf.layout.font_color.getD ""
  else if pyTruthy pf.layout.template_font_color then pf.layout.template_font_color.getD ""
  else if pyTruthy env.pio_default_font_color then env.pio_default_font_color.getD ""
  else "black"

/-- Embedding of `_get_matplotlib_font_color`: x label, y label, title, then
the first x tick label (skipping the sentinel `"auto"`), then
`plt.rcParams.get("text.color", "black")`. -/
def _get_matplotlib_font_color (env : Env) (ax : MplAxes) : String :=
  if ax.xlabel_color ≠ "auto" then ax.xlabel_color
  else if ax.ylabel_color ≠ "auto" then ax.ylabel_color
  else if ax.title_color ≠ "auto" then ax.title_color
  else
    match ax.tick_colors.head? with
    | some c => if c ≠ "auto" then c else env.rc_text_color.getD ("black")
    | none => env.rc_text_color.getD ("black")

/-- Embedding of `get_font_color`: dispatch on the figure-handle variant,
`TypeError` for anything else. -/
def get_font_color (env : Env) (fig : PyObj) : Except PyError String :=
  match fig with
  | PyObj.plotlyFig pf => Except.ok (_get_plotly_font_color env pf)
  | PyObj.mplAxes ax => Except.ok (_get_matplotlib_font_color env ax)
  | PyObj.mplFigure f => Except.ok (_get_matplotlib_font_color env f.gca)
  | _ => Except.error PyError.typeError

/-! ### Annotation placement (`annotate`) -/

/-- Detection of a faceted trace: `getattr(trace, "xaxis", None)` is neither
`None` nor `"x"`. -/
def isFacetTrace (tr : Trace) : Bool :=
  match tr.xaxis with
  | none => false
  | some ax => decide (ax ≠ "x")

/-- Default keyword values of the plotly branch of `annotate`. -/
def annTextDefaults (color : String) : PyDict :=
  [(("x"), PyLit.q 0.02), (("y"), PyLit.q 0.96), (("showarrow"), PyLit.b false),
   (("font"), PyLit.fontLit 16 color), (("align"), PyLit.s ("left"))]

/-- Default keyword values of the matplotlib branch of `annotate`. -/
def mplTextDefaults (color : String) : PyDict :=
  [(("frameon"), PyLit.b false), (("loc"), PyLit.s ("upper left")),
   (("prop"), PyLit.propLit color)]

/-- Construction of one faceted annotation record:
`fig.add_annotation(text=sub_text, **(dict(xref=xref, yref=yref) |
text_defaults | kwargs))`.  The per-trace `xref`/`yref` are derived from the
trace's x-axis reference `ax` as `ax[1:] or ""`.  A `text` key already in
the merged kwargs would make the Python call fail with `TypeError`
(duplicate keyword argument). -/
def mkAnnChecked (color : String) (kwargs : PyDict) (s : String) (ax : String) :
    Except PyError PyDict :=
  let subplot_idx := pyStrOr (pyDrop1 ax) ""
  let xref := if subplot_idx ≠ "" then "x" ++ subplot_idx ++ " domain" else "x domain"
  let yref := if subplot_idx ≠ "" then "y" ++ subplot_idx ++ " domain" else "y domain"
  let merged := pyUpdate (pyUpdate [(("xref"), PyLit.s xref), (("yref"), PyLit.s yref)]
    (annTextDefaults color)) kwargs
  if (pyLookup ("text") merged).isSome then Except.error PyError.typeError
  else Except.ok ((("text"), PyLit.s s) :: merged)

/-- Annotation record produced by `mkAnnChecked` when no extra kwargs are
passed (the merge is then the plain concatenation of the reference keys and
the defaults). -/
def facetAnnNil (color : String) (s : String) (ax : String) : PyDict :=
  let subplot_idx := pyStrOr (pyDrop1 ax) ""
  let xref := if subplot_idx ≠ "" then "x" ++ subplot_idx ++ " domain" else "x domain"
  let yref := if subplot_idx ≠ "" then "y" ++ subplot_idx ++ " domain" else "y domain"
  (("text"), PyLit.s s) :: (("xref"), PyLit.s xref) :: (("yref"), PyLit.s yref)
    :: annTextDefaults color

/-- Construction of the single annotation record of the non-faceted plotly
branch (`xref` and `yref` are the literal `"paper"`). -/
def mkPaperAnnChecked (color : String) (kwargs : PyDict) (s : String) :
    Except PyError PyDict :=
  let merged := pyUpdate (pyUpdate [(("xref"), PyLit.s ("paper")), (("yref"), PyLit.s ("paper"))]
    (annTextDefaults color)) kwargs
  if (pyLookup ("text") merged).isSome then Except.error PyError.typeError
  else Except.ok ((("text"), PyLit.s s) :: merged)

/-- Append annotation records to a plotly figure's layout (the effect of
`fig.add_annotation`). -/
def withAnns (pf : PlotlyFigure) (new : List PyDict) : PlotlyFigure :=
  { pf with layout := { pf.layout with anns := pf.layout.anns ++ new } }

/-- The per-trace text selected at position `idx`: the whole string when
`text` is a string, `text[idx]` when it is a sequence (Python raises
`IndexError` past the end). -/
def subTextAt (text : TextArg) (idx : Nat) : Except PyError String :=
  match text with
  | TextArg.str s => Except.ok s
  | TextArg.list l =>
    match l.get? idx with
    | some s => Except.ok s
    | none => Except.error PyError.indexError

/-- Loop of the faceted plotly branch of `annotate`: one iteration per trace
of `fig.data`, in order.  An empty per-trace text skips the trace; a trace
whose `xaxis` is `None` makes `trace.xaxis[1:]` fail with `TypeError`.  The
result carries the error (if any) and the records added before it. -/
def annotateFacetLoop (color : String) (kwargs : PyDict) (text : TextArg) :
    Nat → List Trace → Option PyError × List PyDict
  | _, [] => (none, [])
  | idx, tr :: rest =>
    match subTextAt text idx with
    | Except.error e => (some e, [])
    | Except.ok s =>
      if s = "" then annotateFacetLoop color kwargs text (idx + 1) rest
      else
        match tr.xaxis with
        | none => (some PyError.typeError, [])
        | some ax =>
          match mkAnnChecked color kwargs s ax with
          | Except.error e => (some e, [])
          | Except.ok ann =>
            let tail := annotateFacetLoop color kwargs text (idx + 1) rest
            (tail.1, ann :: tail.2)

/-- Embedding of `annotate`.  The result is the raised error (if any)
together with the returned figure handle and the plotting environment, both
reflecting the mutations performed before any error.  The font color
default `kwargs.pop("color", get_font_color(fig))` is evaluated eagerly, as
in Python, so an unsupported handle fails with `TypeError` there. -/
def annotate (env : Env) (text : TextArg) (fig : PyObj) (kwargs : PyDict) :
    Option PyError × PyObj × Env :=
  match get_font_color env fig with
  | Except.error e => (some e, fig, env)
  | Except.ok fc =>
    let color :=
      match pyLookup ("color") kwargs with
      | some (PyLit.s c) => c
      | _ => fc
    let kwargs2 := kwargs.filter (fun kv => kv.1 ≠ "color")
    match fig with
    | PyObj.mplAxes ax =>
      (none,
       PyObj.mplAxes { ax with artists := ax.artists ++ [(text, pyUpdate (mplTextDefaults color) kwargs2)] },
       env)
    | PyObj.mplFigure f =>
      (none, PyObj.mplFigure f,
       { env with plt_gca :=
          { env.plt_gca with artists :=
              env.plt_gca.artists ++ [(text, pyUpdate (mplTextDefaults color) kwargs2)] } })
    | PyObj.plotlyFig pf =>
      if pf.data.any isFacetTrace then
        let res := annotateFacetLoop color kwargs2 text 0 pf.data
        (res.1,
         PyObj.plotlyFig { pf with layout := { pf.layout with anns := pf.layout.anns ++ res.2 } },
         env)
      else
        match text with
        | TextArg.str s =>
          match mkPaperAnnChecked color kwargs2 s with
          | Except.error e => (some e, PyObj.plotlyFig pf, env)
          | Except.ok ann =>
            (none,
             PyObj.plotlyFig { pf with layout := { pf.layout with anns := pf.layout.anns ++ [ann] } },
             env)
        | TextArg.list _ => (some PyError.valueError, PyObj.plotlyFig pf, env)
    | _ => (some PyError.typeError, fig, env)

/-! ### Figure validation (`validate_fig`) -/

/-- Embedding of the `validate_fig` decorator: the wrapper reads
`kwargs.get("fig")` and raises `TypeError` when the value is neither `None`
nor a supported figure handle; otherwise it calls the wrapped function on
the original arguments. -/
def validate_fig {R : Type} (func : List PyObj → List (String × PyObj) → Except PyError R)
    (args : List PyObj) (kwargs : List (String × PyObj)) : Except PyError R :=
  let fig := (pyLookup ("fig") kwargs).getD PyObj.pyNone
  if fig ≠ PyObj.pyNone ∧ isFigType fig = false then Except.error PyError.typeError
  else func args kwargs

/-! ### Axis-range extraction (`get_fig_xy_range`) -/

/-- Numbers returned by `get_fig_xy_range`: an exact rational, or the real
number `10 ** e` (Python's base-10 exponentiation on log-axis ranges)
represented symbolically by its exponent. -/
inductive PyNum where
  | val (q : ℚ)
  | tenPow (e : ℚ)
deriving DecidableEq

/-- Conversion of one reported axis range: exponentiate base 10 when the
axis type is `"log"`, keep the endpoints otherwise. -/
def axisConv (ty : Option String) (r : ℚ × ℚ) : PyNum × PyNum :=
  if ty = some ("log") then (PyNum.tenPow r.1, PyNum.tenPow r.2)
  else (PyNum.val r.1, PyNum.val r.2)

/-- Python list indexing `l[i]` with negative-index wrap-around, raising
`IndexError` out of range. -/
def pyIndexInt (l : List Trace) (i : Int) : Except PyError Trace :=
  let j := if i < 0 then i + (l.length : Int) else i
  if h : 0 ≤ j ∧ j.toNat < l.length then Except.ok (l.get ⟨j.toNat, h.2⟩)
  else Except.error PyError.indexError

/-- Indexing `fig.data[trace_idx]` where `trace_idx` arrived as an arbitrary
Python value (a non-integer index is a `TypeError`). -/
def pyIndexObj (l : List Trace) (i : PyObj) : Except PyError Trace :=
  match i with
  | PyObj.pyInt n => pyIndexInt l n
  | _ => Except.error PyError.typeError

/-- Row-wise `pd.DataFrame({"x": xs, "y": ys}).dropna()`: keep the positions
where both columns have a value. -/
def dropna (xs ys : List (Option ℚ)) : List (ℚ × ℚ) :=
  (xs.zip ys).filterMap
    (fun p =>
      match p.1, p.2 with
      | some a, some b => some (a, b)
      | _, _ => none)

/-- Python `min` of a nonempty list given as head and tail. -/
def pyMinQ (x : ℚ) (xs : List ℚ) : ℚ := xs.foldl min x

/-- Python `max` of a nonempty list given as head and tail. -/
def pyMaxQ (x : ℚ) (xs : List ℚ) : ℚ := xs.foldl max x

/-- Fallback branch of `get_fig_xy_range` (taken when
`full_figure_for_development` raises): ranges are the min/max of the
numeric data of the trace at `trace_idx` after dropping missing values,
exponentiated when the corresponding layout axis is logarithmic.  Python's
`min`/`max` on an empty sequence raise `ValueError`, as does building the
data frame from columns of different lengths. -/
def plotlyFallbackRange (pf : PlotlyFigure) (traceIdxArg : PyObj) :
    Except PyError ((PyNum × PyNum) × (PyNum × PyNum)) :=
  match pyIndexObj pf.data traceIdxArg with
  | Except.error e => Except.error e
  | Except.ok trace =>
    if trace.x.length ≠ trace.y.length then Except.error PyError.valueError
    else
      match dropna trace.x trace.y with
      | [] => Except.error PyError.valueError
      | r0 :: rest =>
        let xs := rest.map Prod.fst
        let ys := rest.map Prod.snd
        Except.ok
          (axisConv pf.layout.xaxis.type (pyMinQ r0.1 xs, pyMaxQ r0.1 xs),
           axisConv pf.layout.yaxis.type (pyMinQ r0.2 ys, pyMaxQ r0.2 ys))

/-- Body of `get_fig_xy_range` (the code inside the `validate_fig`
decorator): `None` falls back to `plt.gcf()`; a matplotlib handle reports
its axes limits; a plotly handle prefers the rendered ranges of
`full_figure_for_development` and falls back to the data ranges when that
routine raises; any other value fails like Python's attribute access on it
(`AttributeError`). -/
def get_fig_xy_range_body (env : Env) (figArg : PyObj) (traceIdxArg : PyObj) :
    Except PyError ((PyNum × PyNum) × (PyNum × PyNum)) :=
  let fig := if figArg = PyObj.pyNone then PyObj.mplFigure env.plt_gcf else figArg
  match fig with
  | PyObj.mplAxes ax =>
    Except.ok ((PyNum.val ax.xlim.1, PyNum.val ax.xlim.2),
               (PyNum.val ax.ylim.1, PyNum.val ax.ylim.2))
  | PyObj.mplFigure f =>
    Except.ok ((PyNum.val f.gca.xlim.1, PyNum.val f.gca.xlim.2),
               (PyNum.val f.gca.ylim.1, PyNum.val f.gca.ylim.2))
  | PyObj.plotlyFig pf =>
    match pf.dev with
    | some dev =>
      Except.ok (axisConv dev.xaxis_type dev.xaxis_range,
                 axisConv dev.yaxis_type dev.yaxis_range)
    | none => plotlyFallbackRange pf traceIdxArg
  | _ => Except.error PyError.attributeError

/-- Binding of one Python parameter from a positional slot, a keyword slot
and an optional default (`TypeError` on a duplicate or a missing required
argument). -/
def bindParam (pos : Option PyObj) (kw : Option PyObj) (dflt : Option PyObj) :
    Except PyError PyObj :=
  match pos, kw with
  | some _, some _ => Except.error PyError.typeError
  | some v, none => Except.ok v
  | none, some v => Except.ok v
  | none, none =>
    match dflt with
    | some v => Except.ok v
    | none => Except.error PyError.typeError

/-- Argument binding for the signature `get_fig_xy_range(fig, trace_idx=0)`. -/
def get_fig_xy_range_bound (env : Env) (args : List PyObj)
    (kwargs : List (String × PyObj)) :
    Except PyError ((PyNum × PyNum) × (PyNum × PyNum)) :=
  if args.length > 2 then Except.error PyError.typeError
  else if !(kwargs.all (fun kv => decide (kv.1 = "fig" ∨ kv.1 = "trace_idx"))) then
    Except.error PyError.typeError
  else
    match bindParam (args.get? 0) (pyLookup ("fig") kwargs) none with
    | Except.error e => Except.error e
    | Except.ok figArg =>
      match bindParam (args.get? 1) (pyLookup ("trace_idx") kwargs) (some (PyObj.pyInt 0)) with
      | Except.error e => Except.error e
      | Except.ok tiArg => get_fig_xy_range_body env figArg tiArg

/-- Embedding of the decorated `get_fig_xy_range` as called from Python:
the `validate_fig` wrapper around the bound body. -/
def get_fig_xy_range_call (env : Env) (args : List PyObj)
    (kwargs : List (String × PyObj)) :
    Except PyError ((PyNum × PyNum) × (PyNum × PyNum)) :=
  validate_fig (get_fig_xy_range_bound env) args kwargs

/-! ### Concrete fixtures used by witnesses -/

/-- Concrete matplotlib axes with default black text and axis limits
`[0, 10] × [0, 5]`. -/
def ax0 : MplAxes :=
  { xlim := (0, 10), ylim := (0, 5), xlabel_color := "black", ylabel_color := "black",
    title_color := "black", tick_colors := [], artists := [] }

/-- Concrete ambient plotting state. -/
def env0 : Env :=
  { plt_gca := ax0, plt_gcf := { gca := ax0 }, rc_text_color := none,
    pio_default_font_color := none }

/-- Plotly layout with linear axes and no styling. -/
def layout0 : PlotlyLayout :=
  { font_color := none, template_font_color := none, xaxis := { type := none },
    yaxis := { type := none }, anns := [] }

/-- Faceted two-trace plotly figure (second trace on sub-plot `x2`). -/
def figFacet : PlotlyFigure :=
  { data := [{ xaxis := some ("x"), x := [some 0], y := [some 0] },
             { xaxis := some ("x2"), x := [some 1], y := [some 1] }],
    layout := layout0, dev := none }

/-- Non-faceted one-trace plotly figure. -/
def figPlain : PlotlyFigure :=
  { data := [{ xaxis := some ("x"), x := [some 0], y := [some 0] }],
    layout := layout0, dev := none }

/-- Linear-scale plotly figure without kaleido whose data spans exactly
`[0, 10]` on x and `[0, 5]` on y (with a missing value dropped). -/
def figSpan : PlotlyFigure :=
  { data := [{ xaxis := some ("x"),
               x := [some 0, some 3, none, some 10],
               y := [some 5, some 0, some 1, some 2] }],
    layout := layout0, dev := none }

/-- Plotly figure whose rendered ranges are available (kaleido installed),
with a logarithmic x axis. -/
def figDev : PlotlyFigure :=
  { data := [{ xaxis := some ("x"), x := [some 1, some 2], y := [some 3, some 4] }],
    layout := layout0,
    dev := some { xaxis_type := some ("log"), yaxis_type := none,
                  xaxis_range := (0, 2), yaxis_range := (3, 4) } }

/-! ### Helper lemmas -/

/-- With no extra kwargs the faceted annotation record is the plain
concatenation described by `facetAnnNil`. -/
theorem mkAnnChecked_nil (color s ax : String) :
    mkAnnChecked color [] s ax = Except.ok (facetAnnNil color s ax) := rfl

/-- Faceted loop on a plain-string text: every trace with an x-axis
reference receives the same text and no error is raised. -/
theorem annotateFacetLoop_str (color : String) (s : String) (hs : s ≠ "") :
    ∀ (trs : List Trace) (idx : Nat), (∀ tr ∈ trs, tr.xaxis ≠ none) →
    annotateFacetLoop color [] (TextArg.str s) idx trs
      = (none, trs.map (fun tr => facetAnnNil color s (tr.xaxis.getD ""))) := by
  intro trs
  induction trs with
  | nil => intro idx _; rfl
  | cons tr rest ih =>
    intro idx h
    have htr : tr.xaxis ≠ none := h tr (List.mem_cons_self tr rest)
    obtain ⟨ax, hax⟩ := Option.ne_none_iff_exists'.mp htr
    have hrest : ∀ t ∈ rest, t.xaxis ≠ none := fun t ht => h t (List.mem_cons_of_mem tr ht)
    simp only [annotateFacetLoop, subTextAt, hax, mkAnnChecked_nil, if_neg hs,
      ih (idx + 1) hrest, List.map_cons, Option.getD_some]

/-- Faceted loop on a sequence text that covers all remaining traces:
entries are consumed positionally, empty entries skip their trace, and no
error is raised. -/
theorem annotateFacetLoop_list (color : String) (l : List String) :
    ∀ (trs : List Trace) (idx : Nat), (∀ tr ∈ trs, tr.xaxis ≠ none) →
    idx + trs.length ≤ l.length →
    annotateFacetLoop color [] (TextArg.list l) idx trs
      = (none, ((l.drop idx).zip trs).filterMap
          (fun p => if p.1 = "" then none
                    else some (facetAnnNil color p.1 (p.2.xaxis.getD "")))) := by
  intro trs
  induction trs with
  | nil => intro idx _ _; simp [annotateFacetLoop, List.zip_nil_right]
  | cons tr rest ih =>
    intro idx h hlen
    have hidx : idx < l.length := by
      simp only [List.length_cons] at hlen
      omega
    have htr : tr.xaxis ≠ none := h tr (List.mem_cons_self tr rest)
    obtain ⟨ax, hax⟩ := Option.ne_none_iff_exists'.mp htr
    have hrest : ∀ t ∈ rest, t.xaxis ≠ none := fun t ht => h t (List.mem_cons_of_mem tr ht)
    have hlen2 : idx + 1 + rest.length ≤ l.length := by
      simp only [List.length_cons] at hlen; omega
    have hget : l.get? idx = some (l.get ⟨idx, hidx⟩) := List.get?_eq_get hidx
    have hdrop : l.drop idx = l.get ⟨idx, hidx⟩ :: l.drop (idx + 1) := by
      rw [List.get_eq_getElem]
      exact List.drop_eq_getElem_cons hidx
    by_cases he : l.get ⟨idx, hidx⟩ = ""
    · simp only [annotateFacetLoop, subTextAt, hget, he, if_pos rfl,
        ih (idx + 1) hrest hlen2, hdrop, List.zip_cons_cons, List.filterMap_cons, he]
      simp [he]
    · simp only [annotateFacetLoop, subTextAt, hget, if_neg he, hax, mkAnnChecked_nil,
        ih (idx + 1) hrest hlen2, hdrop, List.zip_cons_cons, List.filterMap_cons,
        if_neg he, Option.getD_some]

/-- Calling the decorated `get_fig_xy_range` with a plotly figure and an
integer trace index reaches the body with those arguments. -/
theorem get_fig_xy_range_call_plotly (env : Env) (pf : PlotlyFigure) (i : Int) :
    get_fig_xy_range_call env []
        [(("fig"), PyObj.plotlyFig pf), (("trace_idx"), PyObj.pyInt i)]
      = get_fig_xy_range_body env (PyObj.plotlyFig pf) (PyObj.pyInt i) := rfl

/-! ### Claim theorems -/

/-- C1: luminance returns the WCAG 2.0 combination
`0.2126·R + 0.7152·G + 0.0722·B` of the normalized RGB channels for every
color input; an `"rgb(r,g,b[,a])"` string is parsed component-wise and all
three channels are divided by 255 when any of them exceeds 1; in particular
white maps to 1.0, black to 0.0 and `"rgb(255,0,0)"` to 0.2126. -/
theorem claim_C1 :
    (∀ r g b : ℚ, 0 ≤ r → r ≤ 1 → 0 ≤ g → g ≤ 1 → 0 ≤ b → b ≤ 1 →
      luminance (ColorType.rgbTuple r g b none)
        = Except.ok (0.2126 * r + 0.7152 * g + 0.0722 * b))
    ∧ (∀ (s : String) (r g b : ℚ) (rest : List ℚ),
        pyStartsWith s ("rgb(") = true →
        parse_rgb_string s = some (r :: g :: b :: rest) →
        luminance (ColorType.str s)
          = Except.ok (if r > 1 ∨ g > 1 ∨ b > 1
              then 0.2126 * (r / 255) + 0.7152 * (g / 255) + 0.0722 * (b / 255)
              else 0.2126 * r + 0.7152 * g + 0.0722 * b))
    ∧ (∀ (s : String) (r g b a : ℚ),
        pyStartsWith s ("rgb(") = false →
        to_rgba (ColorType.str s) = some (r, g, b, a) →
        luminance (ColorType.str s) = Except.ok (0.2126 * r + 0.7152 * g + 0.0722 * b))
    ∧ luminance (ColorType.rgbTuple 1 1 1 none) = Except.ok 1
    ∧ luminance (ColorType.rgbTuple 0 0 0 none) = Except.ok 0
    ∧ luminance (ColorType.str ("rgb(255,0,0)")) = Except.ok 0.2126 := by
  refine ⟨?_, ?_, ?_, ?_, ?_, ?_⟩
  · intro r g b hr0 hr1 hg0 hg1 hb0 hb1
    have h1 : to_rgba (ColorType.rgbTuple r g b none) = some (r, g, b, 1) := by
      simp only [to_rgba, Option.getD_none]
      rw [if_pos]
      exact ⟨hr0, hr1, hg0, hg1, hb0, hb1, by norm_num, by norm_num⟩
    simp [luminance, h1]
  · intro s r g b rest hstart hparse
    simp only [luminance, hstart, if_true, hparse]
    rw [apply_ite Except.ok]
  · intro s r g b a hstart hrgba
    simp [luminance, hstart, hrgba]
  · show Except.ok (0.2126 * (1 : ℚ) + 0.7152 * 1 + 0.0722 * 1) = Except.ok 1
    norm_num
  · show Except.ok (0.2126 * (0 : ℚ) + 0.7152 * 0 + 0.0722 * 0) = Except.ok 0
    norm_num
  · show Except.ok
        (0.2126 * (((255 : ℕ) : ℚ) / 255) + 0.7152 * (((0 : ℕ) : ℚ) / 255)
          + 0.0722 * (((0 : ℕ) : ℚ) / 255))
      = Except.ok 0.2126
    norm_num

/-- Witness for C1: the general tuple clause evaluated at the concrete
mid-gray tuple `(1/2, 1/2, 1/2)`. -/
theorem claim_C1_witness :
    luminance (ColorType.rgbTuple (1/2) (1/2) (1/2) none)
      = Except.ok (0.2126 * (1/2 : ℚ) + 0.7152 * (1/2) + 0.0722 * (1/2)) :=
  claim_C1.1 (1/2) (1/2) (1/2) (by norm_num) (by norm_num) (by norm_num)
    (by norm_num) (by norm_num) (by norm_num)

/-- C2: contrast selection returns the dark pair member exactly when the
background luminance strictly exceeds the threshold and the light member
otherwise; with the default threshold 0.3 and default pair (white, black), a
white background yields black. -/
theorem claim_C2 :
    (∀ (bg : ColorType) (thr lum : ℚ) (light dark : ColorType),
      luminance bg = Except.ok lum →
      pick_max_contrast_color bg thr (light, dark)
        = Except.ok (if lum > thr then dark else light))
    ∧ pick_max_contrast_color (ColorType.str ("white")) default_luminance_threshold
        default_contrast_colors = Except.ok (ColorType.str ("black")) := by
  constructor
  · intro bg thr lum light dark h
    simp [pick_max_contrast_color, h]
  · show Except.ok (if (0.2126 * (1 : ℚ) + 0.7152 * 1 + 0.0722 * 1) > default_luminance_threshold
        then default_contrast_colors.2 else default_contrast_colors.1)
      = Except.ok (ColorType.str ("black"))
    norm_num [default_luminance_threshold, default_contrast_colors]

/-- Witness for C2: the general clause applied to the named background color
red, whose luminance 0.2126 does not exceed the default threshold 0.3, so
the light member is returned. -/
theorem claim_C2_witness :
    pick_max_contrast_color (ColorType.str ("red")) (3/10)
        (ColorType.str ("white"), ColorType.str ("black"))
      = Except.ok (ColorType.str ("white")) := by
  have h := claim_C2.1 (ColorType.str ("red")) (3/10) 0.2126
    (ColorType.str ("white")) (ColorType.str ("black"))
    (by show Except.ok (0.2126 * (1 : ℚ) + 0.7152 * 0 + 0.0722 * 0) = Except.ok 0.2126
        norm_num)
  rw [h]
  norm_num

/-- C3: on a faceted plotly figure (some trace references a non-primary
x axis) with a text sequence aligned to the trace order, annotate succeeds
and attaches one record per plotted trace, skipping traces whose aligned
entry is the empty string, with xref/yref derived from each trace's x-axis
reference (suffix after the leading x, empty suffix denoting the primary
sub-plot). -/
theorem claim_C3 (env : Env) (pf : PlotlyFigure) (l : List String)
    (hfac : pf.data.any isFacetTrace = true)
    (hall : ∀ tr ∈ pf.data, tr.xaxis ≠ none)
    (hlen : l.length = pf.data.length) :
    annotate env (TextArg.list l) (PyObj.plotlyFig pf) []
      = (none,
         PyObj.plotlyFig (withAnns pf ((l.zip pf.data).filterMap (fun p =>
           if p.1 = "" then none
           else some (facetAnnNil (_get_plotly_font_color env pf) p.1 (p.2.xaxis.getD ""))))),
         env) := by
  have hl := annotateFacetLoop_list (_get_plotly_font_color env pf) l pf.data 0 hall
    (by omega)
  rw [List.drop_zero] at hl
  simp only [annotate, get_font_color, pyLookup, List.filter_nil, hfac, if_true, withAnns, hl]

/-- Witness for C3: a two-trace faceted figure annotated with `["a", ""]`
receives exactly one record, on the primary sub-plot. -/
theorem claim_C3_witness :
    annotate env0 (TextArg.list ["a", ""]) (PyObj.plotlyFig figFacet) []
      = (none, PyObj.plotlyFig (withAnns figFacet [facetAnnNil ("black") ("a") ("x")]), env0) := by
  have h := claim_C3 env0 figFacet ["a", ""] rfl (by decide) rfl
  exact h.trans (by rfl)

/-- C4: for a plotly figure, get_fig_xy_range uses the rendered ranges of
the rendering routine whenever it is available, takes the manual data
fallback (min/max of the trace data after dropping missing values) exactly
when that routine raises, exponentiates log-axis ranges base 10 in both
paths, and propagates fallback errors to the caller. -/
theorem claim_C4 (env : Env) (pf : PlotlyFigure) (i : Int) :
    (∀ dev, pf.dev = some dev →
      get_fig_xy_range_call env []
          [(("fig"), PyObj.plotlyFig pf), (("trace_idx"), PyObj.pyInt i)]
        = Except.ok (axisConv dev.xaxis_type dev.xaxis_range,
                     axisConv dev.yaxis_type dev.yaxis_range))
    ∧ (∀ (trace : Trace) (r0 : ℚ × ℚ) (rest : List (ℚ × ℚ)),
        pf.dev = none →
        pyIndexInt pf.data i = Except.ok trace →
        trace.x.length = trace.y.length →
        dropna trace.x trace.y = r0 :: rest →
        get_fig_xy_range_call env []
            [(("fig"), PyObj.plotlyFig pf), (("trace_idx"), PyObj.pyInt i)]
          = Except.ok
              (axisConv pf.layout.xaxis.type
                (pyMinQ r0.1 (rest.map Prod.fst), pyMaxQ r0.1 (rest.map Prod.fst)),
               axisConv pf.layout.yaxis.type
                (pyMinQ r0.2 (rest.map Prod.snd), pyMaxQ r0.2 (rest.map Prod.snd))))
    ∧ (pf.dev = none → pyIndexInt pf.data i = Except.error PyError.indexError →
        get_fig_xy_range_call env []
            [(("fig"), PyObj.plotlyFig pf), (("trace_idx"), PyObj.pyInt i)]
          = Except.error PyError.indexError) := by
  refine ⟨?_, ?_, ?_⟩
  · intro dev hdev
    rw [get_fig_xy_range_call_plotly]
    simp [get_fig_xy_range_body, hdev]
  · intro trace r0 rest hdev hidx hlen hrows
    rw [get_fig_xy_range_call_plotly]
    simp [get_fig_xy_range_body, hdev, plotlyFallbackRange, pyIndexObj, hidx, hlen, hrows]
  · intro hdev hidx
    rw [get_fig_xy_range_call_plotly]
    simp [get_fig_xy_range_body, hdev, plotlyFallbackRange, pyIndexObj, hidx]

/-- Witness for C4: a rendered figure with a log x axis reports its
exponentiated rendered range, and an unrendered figure falls back to the
exact data bounds of its first trace. -/
theorem claim_C4_witness :
    get_fig_xy_range_call env0 []
        [(("fig"), PyObj.plotlyFig figDev), (("trace_idx"), PyObj.pyInt 0)]
      = Except.ok ((PyNum.tenPow 0, PyNum.tenPow 2), (PyNum.val 3, PyNum.val 4))
    ∧ get_fig_xy_range_call env0 []
        [(("fig"), PyObj.plotlyFig figSpan), (("trace_idx"), PyObj.pyInt 0)]
      = Except.ok ((PyNum.val 0, PyNum.val 10), (PyNum.val 0, PyNum.val 5)) := by
  constructor
  · exact (claim_C4 env0 figDev 0).1
      { xaxis_type := some ("log"), yaxis_type := none,
        xaxis_range := (0, 2), yaxis_range := (3, 4) } rfl
  · exact (claim_C4 env0 figSpan 0).2.1
      { xaxis := some ("x"), x := [some 0, some 3, none, some 10],
        y := [some 5, some 0, some 1, some 2] }
      (0, 5) [(3, 0), (10, 2)] rfl rfl rfl rfl

/-- C5: extracting the range of fresh linear-scale figures with data bounds
`[0,10]` on x and `[0,5]` on y returns exactly `((0,10),(0,5))`, both for a
matplotlib axes holding those limits and for a plotly figure whose data
spans those bounds (fallback path). -/
theorem claim_C5 :
    get_fig_xy_range_call env0 [] [(("fig"), PyObj.mplAxes ax0)]
      = Except.ok ((PyNum.val 0, PyNum.val 10), (PyNum.val 0, PyNum.val 5))
    ∧ get_fig_xy_range_call env0 [] [(("fig"), PyObj.plotlyFig figSpan)]
      = Except.ok ((PyNum.val 0, PyNum.val 10), (PyNum.val 0, PyNum.val 5)) := ⟨rfl, rfl⟩

/-- C6: the validate_fig wrapper raises TypeError, before the wrapped
function runs, for any fig keyword argument that is neither None nor a
supported figure handle; a None fig passes validation, and get_fig_xy_range
then falls back to the limits of the current global figure. -/
theorem claim_C6 :
    (∀ (R : Type) (func : List PyObj → List (String × PyObj) → Except PyError R)
        (args : List PyObj) (kwargs : List (String × PyObj)) (v : PyObj),
      pyLookup ("fig") kwargs = some v → v ≠ PyObj.pyNone → isFigType v = false →
      validate_fig func args kwargs = Except.error PyError.typeError)
    ∧ (∀ (R : Type) (func : List PyObj → List (String × PyObj) → Except PyError R)
        (args : List PyObj) (kwargs : List (String × PyObj)),
      pyLookup ("fig") kwargs = some PyObj.pyNone →
      validate_fig func args kwargs = func args kwargs)
    ∧ (∀ env : Env,
      get_fig_xy_range_call env [] [(("fig"), PyObj.pyNone)]
        = Except.ok ((PyNum.val env.plt_gcf.gca.xlim.1, PyNum.val env.plt_gcf.gca.xlim.2),
                     (PyNum.val env.plt_gcf.gca.ylim.1, PyNum.val env.plt_gcf.gca.ylim.2))) := by
  refine ⟨?_, ?_, ?_⟩
  · intro R func args kwargs v hv hne hft
    simp [validate_fig, hv, hne, hft]
  · intro R func args kwargs hv
    simp [validate_fig, hv]
  · intro env
    rfl

/-- Witness for C6: a plain dictionary under the fig keyword is rejected
with TypeError regardless of the wrapped function, and a None fig makes
get_fig_xy_range report the limits of the global current figure. -/
theorem claim_C6_witness :
    validate_fig (fun _ _ => Except.ok 0) [] [(("fig"), PyObj.pyDict)]
      = Except.error PyError.typeError
    ∧ get_fig_xy_range_call env0 [] [(("fig"), PyObj.pyNone)]
      = Except.ok ((PyNum.val 0, PyNum.val 10), (PyNum.val 0, PyNum.val 5)) :=
  ⟨claim_C6.1 Nat (fun _ _ => Except.ok 0) [] [(("fig"), PyObj.pyDict)]
      PyObj.pyDict rfl (by decide) rfl,
   claim_C6.2.2 env0⟩

/-- C7: annotating a non-faceted plotly figure with a text that is a list of
strings raises ValueError and leaves the figure without any added record. -/
theorem claim_C7 (env : Env) (pf : PlotlyFigure) (l : List String)
    (hnf : pf.data.any isFacetTrace = false) :
    annotate env (TextArg.list l) (PyObj.plotlyFig pf) []
      = (some PyError.valueError, PyObj.plotlyFig pf, env) := by
  simp [annotate, get_font_color, pyLookup, hnf]

/-- Witness for C7: a one-trace non-faceted figure with `["a", "b"]`. -/
theorem claim_C7_witness :
    annotate env0 (TextArg.list ["a", "b"]) (PyObj.plotlyFig figPlain) []
      = (some PyError.valueError, PyObj.plotlyFig figPlain, env0) :=
  claim_C7 env0 figPlain ["a", "b"] rfl

/-- C8: pretty_label rejects any backend outside the two supported variants
with ValueError, maps R2 and R2_adj to the backend-specific markup, and
returns every other key unchanged. -/
theorem claim_C8 :
    (∀ key backend : String, backend ∉ BACKENDS →
      pretty_label key backend = Except.error PyError.valueError)
    ∧ pretty_label ("R2") MATPLOTLIB = Except.ok ("$R^2$")
    ∧ pretty_label ("R2") PLOTLY = Except.ok ("R<sup>2</sup>")
    ∧ pretty_label ("R2_adj") MATPLOTLIB = Except.ok ("$R^2_{adj}$")
    ∧ pretty_label ("R2_adj") PLOTLY = Except.ok ("R<sup>2</sup><sub>adj</sub>")
    ∧ (∀ key backend : String, key ≠ "R2" → key ≠ "R2_adj" → backend ∈ BACKENDS →
      pretty_label key backend = Except.ok key) := by
  refine ⟨?_, rfl, rfl, rfl, rfl, ?_⟩
  · intro key backend h
    simp [pretty_label, h]
  · intro key backend h1 h2 hb
    have hm : pyLookup key symbol_mapping = none := by
      simp only [symbol_mapping, pyLookup]
      rw [if_neg (fun h => h1 h.symm), if_neg (fun h => h2 h.symm)]
    simp [pretty_label, hb, hm]

/-- Witness for C8: an unsupported backend identifier is rejected, and an
unknown metric key passes through unchanged. -/
theorem claim_C8_witness :
    pretty_label ("R2") ("seaborn") = Except.error PyError.valueError
    ∧ pretty_label ("MAE") ("plotly") = Except.ok ("MAE") :=
  ⟨claim_C8.1 ("R2") ("seaborn") (by decide),
   claim_C8.2.2.2.2.2 ("MAE") ("plotly") (by decide) (by decide) (by decide)⟩

/-- C9: the validate_fig wrapper checks only a keyword argument named fig;
when no such keyword is present (the figure passed positionally or under
another name), it performs no check and raises no TypeError of its own,
whatever the values are: it defers entirely to the wrapped function. -/
theorem claim_C9 (R : Type) (func : List PyObj → List (String × PyObj) → Except PyError R)
    (args : List PyObj) (kwargs : List (String × PyObj))
    (h : pyLookup ("fig") kwargs = none) :
    validate_fig func args kwargs = func args kwargs := by
  simp [validate_fig, h]

/-- Witness for C9: a plain dictionary passed positionally, with an
unrelated keyword, reaches the wrapped function without any TypeError. -/
theorem claim_C9_witness :
    validate_fig (fun a _ => Except.ok a.length) [PyObj.pyDict]
        [(("other"), PyObj.pyDict)]
      = Except.ok 1 := by
  rw [claim_C9 Nat (fun a _ => Except.ok a.length) [PyObj.pyDict]
    [(("other"), PyObj.pyDict)] rfl]
  rfl

/-- C10: on a faceted plotly figure in which every trace carries an x-axis
reference, annotate with a single non-empty string succeeds and attaches
that same string once per plotted trace. -/
theorem claim_C10 (env : Env) (pf : PlotlyFigure) (s : String)
    (hfac : pf.data.any isFacetTrace = true)
    (hall : ∀ tr ∈ pf.data, tr.xaxis ≠ none)
    (hs : s ≠ "") :
    annotate env (TextArg.str s) (PyObj.plotlyFig pf) []
      = (none,
         PyObj.plotlyFig (withAnns pf (pf.data.map (fun tr =>
           facetAnnNil (_get_plotly_font_color env pf) s (tr.xaxis.getD "")))),
         env) := by
  simp only [annotate, get_font_color, pyLookup, List.filter_nil, hfac, if_true, withAnns,
    annotateFacetLoop_str _ s hs pf.data 0 hall]

/-- Witness for C10: the two-trace faceted figure annotated with the single
string hi receives the identical text on both sub-plots. -/
theorem claim_C10_witness :
    annotate env0 (TextArg.str ("hi")) (PyObj.plotlyFig figFacet) []
      = (none,
         PyObj.plotlyFig (withAnns figFacet
           [facetAnnNil ("black") ("hi") ("x"), facetAnnNil ("black") ("hi") ("x2")]),
         env0) := by
  have h := claim_C10 env0 figFacet ("hi") rfl (by decide) (by decide)
  exact h.trans (by rfl)

end Pymatviz
